import Mathlib

/-!
Verification of the SEC-filing analysis pipeline (backend of the
stock-analyze repository) against its natural-language specification.

The Python modules `app/utils/llm.py`, `app/utils/sec_edgar.py`,
`app/utils/tasks.py` and `app/routes/analyses.py` are shallowly embedded
below.  External effects (the OpenAI backend, the SEC EDGAR service, the
MongoDB collections, the Celery queue) are modelled as explicit inputs:
the outcome of each remote interaction is a parameter of the embedded
function, and the embedded function computes exactly what the Python code
computes from that outcome.  Python dictionaries are modelled as ordered
association lists (insertion order is significant in the source), Python
strings as Lean strings, and raised-versus-returned behaviour as
`Except`/`Option` results.
-/

set_option autoImplicit false

namespace StockAnalyze

/-- A JSON value as far as the pipeline inspects one: the reasoning
backend's reply object only ever has null, boolean and string fields on
the paths the code reads. -/
inductive JVal where
  | jnull : JVal
  | jbool : Bool → JVal
  | jstr : String → JVal
deriving DecidableEq, Repr

/-- A parsed JSON object / Python dict: an ordered association list,
as `json.loads` produces for an object (insertion order preserved). -/
abbrev JObj := List (String × JVal)

/-- Python `d.get(k)` / `d[k]` lookup: first entry with the key. -/
def lookupKey (obj : JObj) (k : String) : Option JVal :=
  (obj.find? (fun p => p.1 = k)).map (fun p => p.2)

/-- Python `d[k] = v` on a dict: replace the value of an existing key in
place (keys are unique in a Python dict), otherwise append the key. -/
def setKey : JObj → String → JVal → JObj
  | [], k, v => [(k, v)]
  | (k', v') :: rest, k, v =>
    if k' = k then (k, v) :: rest else (k', v') :: setKey rest k v

/-- Python truthiness of the JSON values the code tests with `if x:`. -/
def jTruthy : JVal → Bool
  | JVal.jnull => false
  | JVal.jbool b => b
  | JVal.jstr s => s ≠ ""

/-- Whether a reply object carries all four verdict fields
(`stock_expected_to_go_up`, `expected_by_date`, `is_good_buy`,
`reasoning`), regardless of their values. -/
def hasAllFourFields (r : JObj) : Bool :=
  (lookupKey r "stock_expected_to_go_up").isSome &&
  (lookupKey r "expected_by_date").isSome &&
  (lookupKey r "is_good_buy").isSome &&
  (lookupKey r "reasoning").isSome

/-- The degraded verdict dict literal repeated throughout `llm.py`: both
booleans false, date null, and the given reasoning text (key order as in
the source). -/
def degradedVerdict (reasoning : String) : JObj :=
  [("stock_expected_to_go_up", JVal.jbool false),
   ("expected_by_date", JVal.jnull),
   ("is_good_buy", JVal.jbool false),
   ("reasoning", JVal.jstr reasoning)]

/-- `llm.py` line 47: reasoning of the empty-input degraded verdict. -/
def noFilingsMsg (companyName : String) : String :=
  "Error: No SEC filings were retrieved for " ++ companyName ++
  ". The edgartools package may not be installed or properly configured, or there may be issues fetching the filings from SEC EDGAR."

/-- `llm.py` line 195: reasoning returned on an authentication error. -/
def authErrorMsg : String :=
  "Unable to analyze SEC filings due to OpenAI API authentication error. Please check your API key configuration."

/-- `llm.py` line 204: reasoning returned when the backend call times out. -/
def timeoutErrorMsg (companyName : String) : String :=
  "Analysis timed out. The SEC filings for " ++ companyName ++
  " may be too extensive for processing within the allocated time."

/-- `llm.py` line 213: reasoning returned on a rate-limit error. -/
def rateLimitErrorMsg : String :=
  "Unable to analyze SEC filings due to OpenAI API rate limits. Please try again later."

/-- `llm.py` line 222: reasoning returned on a generic API error. -/
def apiErrorMsg (details : String) : String :=
  "Unable to analyze SEC filings due to an API error. Details: " ++ details

/-- `llm.py` line 265: reasoning returned when the reply is not JSON. -/
def parseErrorMsg : String :=
  "Error parsing analysis results. The LLM response could not be interpreted correctly."

/-- `llm.py` line 274: reasoning of the catch-all handler. -/
def unexpectedErrorMsg (details : String) : String :=
  "An unexpected error occurred during analysis: " ++ details

/-- Outcome of the one `openai.chat.completions.create` call in
`analyze_filings_with_llm`: one of the four caught exception classes, or
a reply whose body either fails `json.loads` (`parsed = none`) or parses
to an object. -/
inductive BackendOutcome where
  | authError : BackendOutcome
  | timeoutError : BackendOutcome
  | rateLimitError : BackendOutcome
  | apiError : String → BackendOutcome
  | reply : Option JObj → BackendOutcome
deriving DecidableEq, Repr

/-- Month lengths of the proleptic Gregorian calendar used by Python's
`datetime` (leap years as in `datetime.date`). -/
def daysInMonth (year month : Nat) : Nat :=
  if month = 2 then
    if year % 4 = 0 && (year % 100 ≠ 0 || year % 400 = 0) then 29 else 28
  else if month = 4 || month = 6 || month = 9 || month = 11 then 30
  else 31

/-- Splitting a character sequence at a separator, as Python's
`str.split` does (empty parts preserved, result never empty). -/
def splitOnChar (sep : Char) : List Char → List (List Char)
  | [] => [[]]
  | c :: cs =>
    if c = sep then [] :: splitOnChar sep cs
    else
      match splitOnChar sep cs with
      | [] => [[c]]
      | p :: ps => (c :: p) :: ps

/-- The numeric value of a decimal digit sequence. -/
def digitsVal (l : List Char) : Nat :=
  l.foldl (fun n c => n * 10 + (c.toNat - 48)) 0

/-- `datetime.strptime(s, "%Y-%m-%d")` succeeding: exactly four digits of
year (value at least 1, `datetime.MINYEAR`), one or two digits of month
in 1..12, one or two digits of day, separated by literal dashes with
nothing left over, and the day must exist in that month. -/
def isValidYmd (s : String) : Bool :=
  match splitOnChar '-' s.data with
  | [y, m, d] =>
    y.length = 4 && y.all Char.isDigit &&
    (m.length = 1 || m.length = 2) && m.all Char.isDigit &&
    (d.length = 1 || d.length = 2) && d.all Char.isDigit &&
    (1 ≤ digitsVal y && 1 ≤ digitsVal m && digitsVal m ≤ 12 &&
     1 ≤ digitsVal d && digitsVal d ≤ daysInMonth (digitsVal y) (digitsVal m))
  | _ => false

/-- `llm.py` lines 242-253: the `expected_by_date` post-processing of a
successfully parsed reply.  `if analysis_result.get("expected_by_date"):`
is a Python truthiness test, so an absent key, a JSON null, `False` and
the empty string all skip validation; a non-empty string is checked with
`strptime` and replaced by null on `ValueError`; a truthy non-string
raises `TypeError`, which the catch-all handler of the function turns
into the generic degraded verdict. -/
def validateDateField (r : JObj) : JObj :=
  match lookupKey r "expected_by_date" with
  | some (JVal.jstr s) =>
    if s = "" then r
    else if isValidYmd s then r
    else setKey r "expected_by_date" JVal.jnull
  | some (JVal.jbool b) =>
    if b then degradedVerdict (unexpectedErrorMsg "strptime() argument 1 must be str")
    else r
  | some JVal.jnull => r
  | none => r

/-- The reasoning text of the mock verdict (`llm.py` line 145). -/
def mockReasoning (companyName : String) (hashVal : Nat) : String :=
  "This is a mock analysis for testing purposes. The analysis would normally be based on information found in the SEC filings for "
  ++ companyName ++
  ", particularly regarding NDAs, phase 3 trial results, and signs of upcoming FDA approval. Based on simulated analysis, "
  ++ (if hashVal % 2 = 0 then "positive" else "no clear")
  ++ " indicators were found for stock growth in the near term."

/-- `llm.py` lines 136-154: the deterministic mock verdict used when no
real API key is configured.  The md5 hash of the company name and the
`datetime.now`-derived date string are environment inputs. -/
def mockVerdict (companyName : String) (hashVal : Nat) (mockDate : String) : JObj :=
  [("stock_expected_to_go_up", JVal.jbool (hashVal % 2 = 0)),
   ("expected_by_date", JVal.jstr mockDate),
   ("is_good_buy", JVal.jbool (hashVal % 3 = 0)),
   ("reasoning", JVal.jstr (mockReasoning companyName hashVal))]

/-- `llm.py` `analyze_filings_with_llm`: the Analysis Engine.  The
filings come as an ordered mapping from filing type to text; `mockMode`
is the module-level `MOCK_LLM_RESPONSES` flag, `hashVal`/`mockDate`
feed the mock branch, and `outcome` is the result of the one backend
call.  The function always returns a dict — every exception class is
caught and mapped to a degraded verdict. -/
def analyze_filings_with_llm (companyName : String)
    (filingsText : List (String × String)) (mockMode : Bool)
    (hashVal : Nat) (mockDate : String) (outcome : BackendOutcome) : JObj :=
  if filingsText.isEmpty then degradedVerdict (noFilingsMsg companyName)
  else if mockMode then mockVerdict companyName hashVal mockDate
  else
    match outcome with
    | BackendOutcome.authError => degradedVerdict authErrorMsg
    | BackendOutcome.timeoutError => degradedVerdict (timeoutErrorMsg companyName)
    | BackendOutcome.rateLimitError => degradedVerdict rateLimitErrorMsg
    | BackendOutcome.apiError details => degradedVerdict (apiErrorMsg details)
    | BackendOutcome.reply none => degradedVerdict parseErrorMsg
    | BackendOutcome.reply (some r) => validateDateField r

/-- One entry of the SEC company-ticker directory
(`company_tickers.json`): the fields that `get_cik_from_ticker` reads. -/
structure TickerEntry where
  ticker : String
  cik_str : Nat
deriving DecidableEq, Repr

/-- Python `str.upper()` on the ASCII strings tickers are made of:
character-wise uppercasing. -/
def strUpper (s : String) : String := String.mk (s.data.map Char.toUpper)

/-- Python `str(n).zfill (w)`: left-pad a (non-negative) decimal string
with zeros to the given width. -/
def zfill (w : Nat) (s : String) : String :=
  if w ≤ s.length then s
  else String.mk (List.replicate (w - s.length) '0') ++ s

/-- `sec_edgar.py` `get_cik_from_ticker`: resolve a ticker to a CIK.
The directory fetch is a remote call, passed in as `fetch` (`.error` =
any exception while downloading or decoding the directory).  The first
directory entry whose ticker matches case-insensitively wins; its CIK is
rendered in decimal and zero-padded to 10 digits.  Both the no-match
case and the fetch-failure case return `none`. -/
def get_cik_from_ticker (ticker : String)
    (fetch : Except String (List TickerEntry)) : Option String :=
  match fetch with
  | Except.error _ => none
  | Except.ok companies =>
    match companies.find? (fun c => strUpper c.ticker = strUpper ticker) with
    | some c => some (zfill 10 (toString c.cik_str))
    | none => none

/-- One filing as `edgartools` hands it to `get_company_filings_text`:
its filing date (ISO string), accession number, and the result of the
remote `filing.text()` call (`none` models that call raising). -/
structure Filing where
  filing_date : String
  accession_number : String
  text : Option String
deriving DecidableEq, Repr

/-- The remote environment of one `get_company_filings_text` run:
the `Company(cik)` initialisation (`.error` = the exception caught at
the bottom of the function, `.ok` = the company name), the filings the
upstream library returns per requested form type (`none` = the per-type
processing raising, which the code logs and skips), and the summary the
o3-mini call produces for a filing text (that call is made by
`summarize_filing_with_ollamini`, which itself never raises). -/
structure EdgarEnv where
  initResult : Except String String
  filingsFor : String → Option (List Filing)
  summaryFor : String → String → String → String

/-- Lexicographic comparison of character sequences (ISO date strings
compare chronologically this way). -/
def charsLt : List Char → List Char → Bool
  | [], [] => false
  | [], _ :: _ => true
  | _ :: _, [] => false
  | a :: as, b :: bs =>
    if a.toNat < b.toNat then true
    else if b.toNat < a.toNat then false
    else charsLt as bs

/-- Date-string ordering used to rank filings by recency. -/
def dateLt (a b : String) : Bool := charsLt a.data b.data

/-- Insert a filing into a most-recent-first list (stable). -/
def insertByDateDesc (f : Filing) : List Filing → List Filing
  | [] => [f]
  | g :: gs =>
    if dateLt g.filing_date f.filing_date then f :: g :: gs
    else g :: insertByDateDesc f gs

/-- Sort filings most recent first (stable insertion sort). -/
def sortByDateDesc : List Filing → List Filing
  | [] => []
  | f :: fs => insertByDateDesc f (sortByDateDesc fs)

/-- `filings.latest(n)` of the upstream library: the `n` most recent
filings, most recent first (stable on equal dates). -/
def latestFilings (filings : List Filing) (n : Nat) : List Filing :=
  (sortByDateDesc filings).take n

/-- The default form-type list of `get_company_filings_text`
(`sec_edgar.py` line 140). -/
def defaultFilingTypes : List String :=
  ["10-K", "10-Q", "8-K", "S-1", "20-F", "6-K"]

/-- The text block one filing contributes to its category's combined
text (`sec_edgar.py` lines 191-204): a header with category and filing
date, then either the o3-mini summary or the raw text with its document
accession header.  A filing whose `text()` raised, or whose text is
falsy, contributes nothing. -/
def filingBlock (env : EdgarEnv) (summarize : Bool) (filingType : String)
    (f : Filing) : String :=
  match f.text with
  | none => ""
  | some t =>
    if t = "" then ""
    else if summarize then
      "\n\n--- " ++ filingType ++ " FILING DATE: " ++ f.filing_date ++
      " SUMMARY ---\n\n" ++ env.summaryFor t filingType f.filing_date ++ "\n\n"
    else
      "\n\n--- " ++ filingType ++ " FILING DATE: " ++ f.filing_date ++
      " ---\n\n--- DOCUMENT: " ++ f.accession_number ++ " ---\n\n" ++ t ++ "\n\n"

/-- The combined text of one requested form type (`sec_edgar.py`
lines 161-212), or `none` when the type contributes no entry to the
result dict: the upstream lookup raised, returned no filings, or every
individual filing was skipped. -/
def categoryText (env : EdgarEnv) (maxFilings : Nat) (summarize : Bool)
    (filingType : String) : Option String :=
  match env.filingsFor filingType with
  | none => none
  | some filings =>
    if filings.isEmpty then none
    else
      let latest := latestFilings filings maxFilings
      if latest.isEmpty then none
      else
        let combined := String.join (latest.map (filingBlock env summarize filingType))
        if combined = "" then none else some combined

/-- `sec_edgar.py` lines 139-140: `if not filing_types:` replaces a
missing or empty request by the default form-type list. -/
def resolveFilingTypes (filing_types : Option (List String)) : List String :=
  match filing_types with
  | none => defaultFilingTypes
  | some l => if l.isEmpty then defaultFilingTypes else l

/-- `sec_edgar.py` `get_company_filings_text`: fetch and concatenate
filings per requested form type.  Note that the `lookback_days`
parameter is accepted (and documented in the source's docstring) but
never consulted by the body, and that the function never returns an
empty mapping: both total-failure paths substitute a singleton
`"ERROR"` entry. -/
def get_company_filings_text (cik : String)
    (filing_types : Option (List String)) (lookback_days : Nat)
    (max_filings : Nat) (summarize : Bool) (env : EdgarEnv) :
    List (String × String) :=
  let filingTypes := resolveFilingTypes filing_types
  match env.initResult with
  | Except.error e => [("ERROR", "Failed to initialize edgartools: " ++ e)]
  | Except.ok companyName =>
    let filingsText := filingTypes.filterMap
      (fun ft => (categoryText env max_filings summarize ft).map (fun t => (ft, t)))
    if filingsText.isEmpty then
      [("ERROR", "No filings could be retrieved for " ++ companyName)]
    else filingsText

/-- An externally visible action of the Filing Fetcher, in program
order: a remote request to SEC EDGAR or to the OpenAI summarizer, or a
deliberate delay.  Used to state the rate-limiting claim. -/
inductive FetchEvent where
  | remoteCall : String → FetchEvent
  | sleepFor : Nat → FetchEvent
deriving DecidableEq, Repr

/-- The remote calls one filing triggers: the `filing.text()` fetch,
then (when the text is truthy and summarisation is on) the o3-mini
chat-completion request made by `summarize_filing_with_ollamini`. -/
def filingEvents (summarize : Bool) (f : Filing) : List FetchEvent :=
  FetchEvent.remoteCall ("filing.text " ++ f.accession_number) ::
    (match f.text with
     | none => []
     | some t =>
       if t = "" then []
       else if summarize then [FetchEvent.remoteCall "chat.completions.create"]
       else [])

/-- The sequence of externally visible actions a
`get_company_filings_text` run performs, in order: the `Company(cik)`
initialisation (which downloads the filer's submission index), one
`get_filings` request per form type, and per surviving filing its text
fetch and optional summarisation call.  The body of the function
contains no `time.sleep` at all, so no `sleepFor` event is ever
emitted. -/
def get_company_filings_text_events (filing_types : Option (List String))
    (max_filings : Nat) (summarize : Bool) (env : EdgarEnv) :
    List FetchEvent :=
  let filingTypes := resolveFilingTypes filing_types
  FetchEvent.remoteCall "Company submission index" ::
    (match env.initResult with
     | Except.error _ => []
     | Except.ok _ =>
       filingTypes.flatMap (fun ft =>
         FetchEvent.remoteCall ("get_filings " ++ ft) ::
           (match env.filingsFor ft with
            | none => []
            | some filings =>
              if filings.isEmpty then []
              else (latestFilings filings max_filings).flatMap (filingEvents summarize))))

/-- The claim's rate-limiting discipline: between any two consecutive
remote calls there is at least one sleep, i.e. no two remote calls are
adjacent in the action sequence. -/
def sleepBetweenRemoteCalls : List FetchEvent → Bool
  | FetchEvent.remoteCall _ :: FetchEvent.remoteCall _ :: _ => false
  | _ :: rest => sleepBetweenRemoteCalls rest
  | [] => true

/-- A company document as the worker task reads it from the `companies`
collection (`tasks.py` lines 110-123): the fields the code consults. -/
structure CompanyDoc where
  name : String
  ticker : Option String
  cik : Option String
deriving DecidableEq, Repr

/-- The analysis document the worker inserts into the `analyses`
collection (`tasks.py` lines 145-155 and 194-217): the fields the
claims are about (`company_id` reference, the filing categories
recorded, and the verdict object). -/
structure AnalysisDoc where
  company_id : String
  filings_analyzed : List String
  analysis_result : JObj
deriving DecidableEq, Repr

/-- `tasks.py` `analyze_company_sec_filings`: one worker run.  `validOid`
is `ObjectId(company_id)` succeeding, `company` the `companies` lookup,
and the remaining parameters the remote environments of the fetch and
analysis stages.  `Except.error` models the task raising (Celery
`FAILURE`); `Except.ok none` models the early `return None` paths (the
task ends without inserting an analysis); `Except.ok (some doc)` models
the task inserting `doc` and returning its id (the job completes). -/
def analyze_company_sec_filings (company_id : String)
    (filings_types : Option (List String)) (validOid : Bool)
    (company : Option CompanyDoc) (env : EdgarEnv) (mockMode : Bool)
    (hashVal : Nat) (mockDate : String) (outcome : BackendOutcome) :
    Except String (Option AnalysisDoc) :=
  let filingsTypes := filings_types.getD ["8-K", "10-K", "10-Q"]
  if ¬ validOid then Except.ok none
  else
    match company with
    | none => Except.ok none
    | some comp =>
      match comp.cik with
      | none => Except.ok none
      | some cik =>
        let filingsText := get_company_filings_text cik (some filingsTypes) 365 10 true env
        if filingsText.isEmpty then
          Except.ok (some ⟨company_id, filingsTypes,
            degradedVerdict "No SEC filings found in the past year. Unable to perform analysis."⟩)
        else
          let analysisResult :=
            analyze_filings_with_llm comp.name filingsText mockMode hashVal mockDate outcome
          if analysisResult.isEmpty then
            Except.ok (some ⟨company_id, filingsText.map (fun p => p.1),
              degradedVerdict "Error analyzing SEC filings with LLM. Please try again later."⟩)
          else
            match lookupKey analysisResult "stock_expected_to_go_up",
                  lookupKey analysisResult "is_good_buy",
                  lookupKey analysisResult "reasoning" with
            | some _, some _, some (JVal.jstr _) =>
              Except.ok (some ⟨company_id, filingsText.map (fun p => p.1), analysisResult⟩)
            | _, _, _ => Except.error "KeyError"

/-- `bson.ObjectId.is_valid` on a string: exactly 24 hexadecimal
characters. -/
def isValidObjectId (s : String) : Bool :=
  s.length = 24 && s.data.all (fun c =>
    c.isDigit || ('a' ≤ c && c ≤ 'f') || ('A' ≤ c && c ≤ 'F'))

/-- A record of the `analysis_status` collection as `create_analysis`
writes it (`analyses.py` lines 118-141). -/
structure StatusDoc where
  company_id : String
  status : String
  filings_analyzed : List String
  task_id : Option String
  error : Option String
deriving DecidableEq, Repr

/-- A FastAPI `HTTPException`. -/
structure HTTPError where
  status_code : Nat
  detail : String
deriving DecidableEq, Repr

/-- The 202 payload `create_analysis` returns on success. -/
structure CreateResp where
  status : String
  task_id : String
  message : String
deriving DecidableEq, Repr

/-- `analyses.py` `create_analysis` (`startAnalysis`): validate the
request, insert the PENDING status record, dispatch the Celery task.
The result pairs the HTTP outcome with the `analysis_status` collection
after the request; a raised `HTTPException` leaves the collection as the
second component shows (unchanged on the two validation paths, with an
ERROR record on the dispatch-failure path).  `dispatch` is the
`analyze_company_sec_filings.delay` call: `.ok` carries the Celery task
id, `.error` the exception text. -/
def create_analysis (companies : List (String × CompanyDoc))
    (statusColl : List StatusDoc) (request_company_id : String)
    (request_filings : List String)
    (dispatch : Except String String) :
    Except HTTPError CreateResp × List StatusDoc :=
  if ¬ isValidObjectId request_company_id then
    (Except.error ⟨400, "Invalid company ID format: " ++ request_company_id⟩, statusColl)
  else
    match companies.find? (fun p => p.1 = request_company_id) with
    | none =>
      (Except.error ⟨404, "Company with ID " ++ request_company_id ++ " not found"⟩, statusColl)
    | some _ =>
      let filings := if request_filings.isEmpty then ["8-K", "10-K", "10-Q"] else request_filings
      let statusDoc : StatusDoc := ⟨request_company_id, "PENDING", filings, none, none⟩
      match dispatch with
      | Except.ok taskId =>
        (Except.ok ⟨"PENDING", taskId,
           "Analysis task has been queued. Poll the status endpoint to check progress."⟩,
         statusColl ++ [{ statusDoc with task_id := some taskId }])
      | Except.error e =>
        (Except.error ⟨500, "Error starting analysis task: " ++ e⟩,
         statusColl ++ [{ statusDoc with status := "ERROR", error := some e }])

/-- `llm.py` line 97: a text's token estimate, one token per four
characters (integer division). -/
def estTokens (text : List Char) : Nat := text.length / 4

/-- `llm.py` line 84: the approximate token budget of the combined
prompt input. -/
def MAX_TOKENS : Nat := 32000

/-- `llm.py` lines 95-114: the prompt-assembly loop of
`analyze_filings_with_llm`.  Filing texts are taken in insertion order;
a filing that fits within the remaining budget is included whole and
charged to the running total; the first filing whose estimate would
exceed the budget is cut (`text[:(MAX_TOKENS - current_tokens) * 4]`)
and the loop `break`s, so everything after it is dropped.  The result
lists the (filing type, included text) pairs in order. -/
def includeFilings (maxTokens : Nat) :
    Nat → List (String × List Char) → List (String × List Char)
  | _, [] => []
  | currentTokens, (filingType, text) :: rest =>
    if maxTokens < currentTokens + estTokens text then
      [(filingType, text.take ((maxTokens - currentTokens) * 4))]
    else
      (filingType, text) :: includeFilings maxTokens (currentTokens + estTokens text) rest

/-- Total token estimate of a list of filings. -/
def tokensSum (l : List (String × List Char)) : Nat :=
  (l.map (fun p => estTokens p.2)).sum

/-- Whether a fetch event is a deliberate delay. -/
def isSleepEvent : FetchEvent → Bool
  | FetchEvent.sleepFor _ => true
  | FetchEvent.remoteCall _ => false

/-- A fetch environment whose upstream has one 8-K filing with a recent
date and one far outside any one-year lookback window; the summariser
is the identity. -/
def twoEraEnv : EdgarEnv :=
  ⟨Except.ok "Acme Bio",
   fun ft => if ft = "8-K" then
       some [⟨"2020-01-01", "acc-old", some "OLD"⟩,
             ⟨"2026-10-01", "acc-new", some "NEW"⟩]
     else none,
   fun t _ _ => t⟩

/-- A fetch environment with a single retrievable 8-K filing. -/
def oneFilingEnv : EdgarEnv :=
  ⟨Except.ok "Acme Bio",
   fun ft => if ft = "8-K" then
       some [⟨"2026-01-01", "acc-1", some "Material event text."⟩]
     else none,
   fun t _ _ => t⟩

/-- A backend reply object whose `expected_by_date` is the empty
string: present, unparseable as a date, and falsy in Python. -/
def emptyDateReply : JObj :=
  [("stock_expected_to_go_up", JVal.jbool true),
   ("expected_by_date", JVal.jstr ""),
   ("is_good_buy", JVal.jbool false),
   ("reasoning", JVal.jstr "ok")]

/-- A backend reply object missing the `expected_by_date` field
entirely: a partial verdict. -/
def threeFieldReply : JObj :=
  [("stock_expected_to_go_up", JVal.jbool true),
   ("is_good_buy", JVal.jbool false),
   ("reasoning", JVal.jstr "strong pipeline")]

/-- A well-formed backend reply object with a valid calendar date. -/
def validDateReply : JObj :=
  [("stock_expected_to_go_up", JVal.jbool true),
   ("expected_by_date", JVal.jstr "2026-06-30"),
   ("is_good_buy", JVal.jbool true),
   ("reasoning", JVal.jstr "Positive phase 3 results.")]

/-! ### Helper lemmas -/

@[simp] lemma lookupKey_degraded_stock (m : String) :
    lookupKey (degradedVerdict m) "stock_expected_to_go_up" = some (JVal.jbool false) := rfl

@[simp] lemma lookupKey_degraded_date (m : String) :
    lookupKey (degradedVerdict m) "expected_by_date" = some JVal.jnull := rfl

@[simp] lemma lookupKey_degraded_buy (m : String) :
    lookupKey (degradedVerdict m) "is_good_buy" = some (JVal.jbool false) := rfl

@[simp] lemma lookupKey_degraded_reasoning (m : String) :
    lookupKey (degradedVerdict m) "reasoning" = some (JVal.jstr m) := rfl

@[simp] lemma degradedVerdict_isEmpty (m : String) :
    (degradedVerdict m).isEmpty = false := rfl

@[simp] lemma hasAllFourFields_degraded (m : String) :
    hasAllFourFields (degradedVerdict m) = true := rfl

@[simp] lemma mockVerdict_isEmpty (c : String) (h : Nat) (d : String) :
    (mockVerdict c h d).isEmpty = false := rfl

@[simp] lemma hasAllFourFields_mock (c : String) (h : Nat) (d : String) :
    hasAllFourFields (mockVerdict c h d) = true := by
  simp [hasAllFourFields, mockVerdict, lookupKey, List.find?]

lemma lookupKey_ne_nil {r : JObj} {k : String} {v : JVal}
    (h : lookupKey r k = some v) : r.isEmpty = false := by
  cases r with
  | nil => simp [lookupKey] at h
  | cons p rest => rfl

lemma lookupKey_setKey_self (r : JObj) (k : String) (v : JVal) :
    lookupKey (setKey r k v) k = some v := by
  induction r with
  | nil => simp [setKey, lookupKey, List.find?]
  | cons p rest ih =>
    by_cases hk : p.1 = k
    · simp [setKey, hk, lookupKey, List.find?]
    · simpa [setKey, hk, lookupKey, List.find?] using ih

lemma keys_setKey {r : JObj} {k : String} {w : JVal} (v : JVal)
    (h : lookupKey r k = some w) :
    (setKey r k v).map (fun p => p.1) = r.map (fun p => p.1) := by
  induction r with
  | nil => simp [lookupKey] at h
  | cons p rest ih =>
    by_cases hk : p.1 = k
    · simp [setKey, hk]
    · have h' : lookupKey rest k = some w := by
        simpa [lookupKey, List.find?, hk] using h
      simpa [setKey, hk] using ih h'

lemma filings_text_ne_nil (cik : String) (ft : Option (List String))
    (lb mf : Nat) (s : Bool) (env : EdgarEnv) :
    get_company_filings_text cik ft lb mf s env ≠ [] := by
  unfold get_company_filings_text
  cases env.initResult with
  | error e => simp
  | ok name =>
    dsimp only
    split
    · simp
    · next h => simpa [List.isEmpty_iff] using h

lemma filings_text_isEmpty_false (cik : String) (ft : Option (List String))
    (lb mf : Nat) (s : Bool) (env : EdgarEnv) :
    (get_company_filings_text cik ft lb mf s env).isEmpty = false := by
  have := filings_text_ne_nil cik ft lb mf s env
  cases h : get_company_filings_text cik ft lb mf s env with
  | nil => exact absurd h this
  | cons p rest => rfl

/-- Evaluating one worker run along the main success path: valid id,
company present with a CIK, and an analysis result that carries the
three fields the logging lines subscript.  The task then inserts the
analysis document and returns its id. -/
lemma analyze_task_ok (cid : String) (ftypes : Option (List String))
    (name : String) (tick : Option String) (cik : String) (env : EdgarEnv)
    (mock : Bool) (hv : Nat) (md : String) (oc : BackendOutcome)
    (b1 b2 : JVal) (rs : String)
    (h1 : lookupKey (analyze_filings_with_llm name
        (get_company_filings_text cik (some (ftypes.getD ["8-K", "10-K", "10-Q"])) 365 10 true env)
        mock hv md oc) "stock_expected_to_go_up" = some b1)
    (h2 : lookupKey (analyze_filings_with_llm name
        (get_company_filings_text cik (some (ftypes.getD ["8-K", "10-K", "10-Q"])) 365 10 true env)
        mock hv md oc) "is_good_buy" = some b2)
    (h3 : lookupKey (analyze_filings_with_llm name
        (get_company_filings_text cik (some (ftypes.getD ["8-K", "10-K", "10-Q"])) 365 10 true env)
        mock hv md oc) "reasoning" = some (JVal.jstr rs)) :
    analyze_company_sec_filings cid ftypes true (some ⟨name, tick, some cik⟩) env mock hv md oc =
      Except.ok (some ⟨cid,
        (get_company_filings_text cik (some (ftypes.getD ["8-K", "10-K", "10-Q"])) 365 10 true env).map (fun p => p.1),
        analyze_filings_with_llm name
          (get_company_filings_text cik (some (ftypes.getD ["8-K", "10-K", "10-Q"])) 365 10 true env)
          mock hv md oc⟩) := by
  unfold analyze_company_sec_filings
  simp only [not_true, if_false, Bool.false_eq_true, ite_false,
    filings_text_isEmpty_false, lookupKey_ne_nil h1, h1, h2, h3]

lemma includeFilings_all_fit (maxTokens : Nat) :
    ∀ (c : Nat) (l : List (String × List Char)), c + tokensSum l ≤ maxTokens →
      includeFilings maxTokens c l = l := by
  intro c l
  induction l generalizing c with
  | nil => intro _; rfl
  | cons p rest ih =>
    intro h
    obtain ⟨ft, t⟩ := p
    have hsum : c + tokensSum ((ft, t) :: rest) = (c + estTokens t) + tokensSum rest := by
      simp [tokensSum]; ring
    have hle : ¬ maxTokens < c + estTokens t := by
      rw [hsum] at h; omega
    simp only [includeFilings, hle, if_false]
    rw [ih (c + estTokens t) (by rw [hsum] at h; omega)]

lemma includeFilings_overflow (maxTokens : Nat) :
    ∀ (c : Nat) (pre : List (String × List Char)) (ft : String)
      (t : List Char) (post : List (String × List Char)),
      c + tokensSum pre ≤ maxTokens →
      maxTokens < c + tokensSum pre + estTokens t →
      includeFilings maxTokens c (pre ++ (ft, t) :: post) =
        pre ++ [(ft, t.take ((maxTokens - (c + tokensSum pre)) * 4))] := by
  intro c pre
  induction pre generalizing c with
  | nil =>
    intro ft t post h1 h2
    have : maxTokens < c + estTokens t := by
      simp [tokensSum] at h2; omega
    simp [includeFilings, this, tokensSum]
  | cons p rest ih =>
    intro ft t post h1 h2
    obtain ⟨ft', t'⟩ := p
    have hsum : ∀ k : Nat, c + tokensSum ((ft', t') :: rest) + k =
        (c + estTokens t') + tokensSum rest + k := by
      intro k; simp [tokensSum]; ring
    have hle : ¬ maxTokens < c + estTokens t' := by
      have := hsum 0; omega
    simp only [List.cons_append, includeFilings, hle, if_false, List.append_eq]
    have h1' : (c + estTokens t') + tokensSum rest ≤ maxTokens := by
      have := hsum 0; omega
    have h2' : maxTokens < (c + estTokens t') + tokensSum rest + estTokens t := by
      have := hsum (estTokens t); omega
    rw [ih (c + estTokens t') ft t post h1' h2']
    have : maxTokens - (c + tokensSum ((ft', t') :: rest)) =
        maxTokens - ((c + estTokens t') + tokensSum rest) := by
      have := hsum 0; omega
    rw [this]

lemma estTokens_take (t : List Char) (r : Nat) (h : r < estTokens t) :
    estTokens (t.take (r * 4)) = r := by
  have hlen : r * 4 ≤ t.length := by
    have : r + 1 ≤ t.length / 4 := h
    have := (Nat.le_div_iff_mul_le (by norm_num : 0 < 4)).mp this
    omega
  simp only [estTokens, List.length_take]
  omega

lemma zfill_length {s : String} (w : Nat) (h : s.length ≤ w) :
    (zfill w s).length = w := by
  unfold zfill
  split
  · omega
  · rw [String.length_append]
    have : (String.mk (List.replicate (w - s.length) '0')).length = w - s.length := by
      show (List.replicate (w - s.length) '0').length = w - s.length
      simp
    omega

lemma any_flatMap_eq {α β : Type} (l : List α) (f : α → List β) (p : β → Bool) :
    (l.flatMap f).any p = l.any (fun a => (f a).any p) := by
  induction l with
  | nil => rfl
  | cons a l ih => simp [List.flatMap_cons, List.any_append, ih]

lemma filingEvents_no_sleep (s : Bool) (f : Filing) :
    (filingEvents s f).any isSleepEvent = false := by
  unfold filingEvents
  cases f.text with
  | none => rfl
  | some t =>
    by_cases ht : t = ""
    · simp [ht, isSleepEvent]
    · by_cases hs : s = true <;> simp [ht, hs, isSleepEvent]

lemma no_sleep_in_fetch (ft : Option (List String)) (mf : Nat) (s : Bool)
    (env : EdgarEnv) :
    (get_company_filings_text_events ft mf s env).any isSleepEvent = false := by
  unfold get_company_filings_text_events
  cases env.initResult with
  | error e => rfl
  | ok name =>
    dsimp only
    rw [List.any_cons, any_flatMap_eq]
    simp only [isSleepEvent, Bool.false_or]
    rw [List.any_eq_false]
    intro fty _
    rw [Bool.not_eq_true, List.any_cons]
    simp only [isSleepEvent, Bool.false_or]
    cases env.filingsFor fty with
    | none => rfl
    | some filings =>
      dsimp only
      by_cases hemp : filings.isEmpty = true
      · simp [hemp]
      · rw [if_neg hemp, any_flatMap_eq, List.any_eq_false]
        intro f _
        rw [Bool.not_eq_true]
        exact filingEvents_no_sleep s f

/-- On a non-empty filings mapping and a real (non-mock) backend call,
`analyze_filings_with_llm` maps each call outcome to its handler's
result. -/
lemma analyze_nonmock (n : String) {l : List (String × String)}
    (hl : l.isEmpty = false) (hv : Nat) (md : String) (oc : BackendOutcome) :
    analyze_filings_with_llm n l false hv md oc =
      match oc with
      | BackendOutcome.authError => degradedVerdict authErrorMsg
      | BackendOutcome.timeoutError => degradedVerdict (timeoutErrorMsg n)
      | BackendOutcome.rateLimitError => degradedVerdict rateLimitErrorMsg
      | BackendOutcome.apiError d => degradedVerdict (apiErrorMsg d)
      | BackendOutcome.reply none => degradedVerdict parseErrorMsg
      | BackendOutcome.reply (some r) => validateDateField r := by
  unfold analyze_filings_with_llm
  rw [hl]
  cases oc with
  | authError => rfl
  | timeoutError => rfl
  | rateLimitError => rfl
  | apiError d => rfl
  | reply r => cases r with
    | none => rfl
    | some x => rfl

/-- On a non-empty filings mapping with the mock flag set, the Analysis
Engine returns the deterministic mock verdict whatever the backend
outcome would have been. -/
lemma analyze_mock (n : String) {l : List (String × String)}
    (hl : l.isEmpty = false) (hv : Nat) (md : String) (oc : BackendOutcome) :
    analyze_filings_with_llm n l true hv md oc = mockVerdict n hv md := by
  unfold analyze_filings_with_llm
  rw [hl]
  rfl

/-! ### Claims -/

/-- Claim C1 (confirmed): for every company name and non-empty filings
mapping, the Analysis Engine returns a verdict on every backend-failure
path rather than raising: authentication failure, timeout, rate
limiting, malformed (non-JSON) response and generic API error each
produce the degraded verdict whose two booleans are false, whose date is
null, and whose reasoning is the handler's human-readable message naming
that failure; and on a timed-out backend call the worker still inserts
an analysis record and returns its id, so the job ends completed, not
failed. -/
theorem claim_C1 (companyName mockDate : String) (hashVal : Nat)
    (filings : List (String × String)) (hne : filings ≠ []) :
    analyze_filings_with_llm companyName filings false hashVal mockDate
        BackendOutcome.authError = degradedVerdict authErrorMsg ∧
    analyze_filings_with_llm companyName filings false hashVal mockDate
        BackendOutcome.timeoutError = degradedVerdict (timeoutErrorMsg companyName) ∧
    analyze_filings_with_llm companyName filings false hashVal mockDate
        BackendOutcome.rateLimitError = degradedVerdict rateLimitErrorMsg ∧
    (∀ details, analyze_filings_with_llm companyName filings false hashVal mockDate
        (BackendOutcome.apiError details) = degradedVerdict (apiErrorMsg details)) ∧
    analyze_filings_with_llm companyName filings false hashVal mockDate
        (BackendOutcome.reply none) = degradedVerdict parseErrorMsg ∧
    (∀ msg, lookupKey (degradedVerdict msg) "stock_expected_to_go_up" = some (JVal.jbool false) ∧
       lookupKey (degradedVerdict msg) "expected_by_date" = some JVal.jnull ∧
       lookupKey (degradedVerdict msg) "is_good_buy" = some (JVal.jbool false) ∧
       lookupKey (degradedVerdict msg) "reasoning" = some (JVal.jstr msg)) ∧
    (∀ (company_id cik : String) (tick : Option String)
       (ftypes : Option (List String)) (env : EdgarEnv),
      analyze_company_sec_filings company_id ftypes true
          (some ⟨companyName, tick, some cik⟩) env false hashVal mockDate
          BackendOutcome.timeoutError =
        Except.ok (some ⟨company_id,
          (get_company_filings_text cik (some (ftypes.getD ["8-K", "10-K", "10-Q"]))
            365 10 true env).map (fun p => p.1),
          degradedVerdict (timeoutErrorMsg companyName)⟩)) := by
  have hne' : filings.isEmpty = false := by
    cases filings with
    | nil => exact absurd rfl hne
    | cons p rest => rfl
  refine ⟨analyze_nonmock companyName hne' hashVal mockDate _,
    analyze_nonmock companyName hne' hashVal mockDate _,
    analyze_nonmock companyName hne' hashVal mockDate _,
    fun details => analyze_nonmock companyName hne' hashVal mockDate _,
    analyze_nonmock companyName hne' hashVal mockDate _,
    fun msg => ⟨rfl, rfl, rfl, rfl⟩, ?_⟩
  intro company_id cik tick ftypes env
  have hfe : (get_company_filings_text cik (some (ftypes.getD ["8-K", "10-K", "10-Q"]))
      365 10 true env).isEmpty = false :=
    filings_text_isEmpty_false cik _ 365 10 true env
  have hres := analyze_nonmock companyName hfe hashVal mockDate BackendOutcome.timeoutError
  have hok := analyze_task_ok company_id ftypes companyName tick cik env false hashVal
    mockDate BackendOutcome.timeoutError (JVal.jbool false) (JVal.jbool false)
    (timeoutErrorMsg companyName)
    (by rw [hres]; exact lookupKey_degraded_stock _)
    (by rw [hres]; exact lookupKey_degraded_buy _)
    (by rw [hres]; exact lookupKey_degraded_reasoning _)
  rw [hres] at hok
  exact hok

/-- Claim C1 witness: at a concrete non-empty filings mapping, a
timed-out backend call yields the degraded timeout verdict. -/
theorem claim_C1_witness :
    ([(("8-K" : String), ("text" : String))] ≠ []) ∧
    analyze_filings_with_llm "Acme Bio" [("8-K", "text")] false 0 "2026-01-01"
        BackendOutcome.timeoutError = degradedVerdict (timeoutErrorMsg "Acme Bio") :=
  ⟨by simp,
   (claim_C1 "Acme Bio" "2026-01-01" 0 [("8-K", "text")] (by simp)).2.1⟩

/-- Claim C2 (confirmed): the prompt-assembly loop includes filing
categories in insertion order while they fit the approximate token
budget (characters divided by four, budget constant 32000); the first
category whose estimate would overflow is cut to exactly the remaining
budget and iteration stops, excluding every later category; a list that
fits entirely is included unchanged; and the policy is a function of the
input alone. -/
theorem claim_C2 (maxTokens : Nat) (pre : List (String × List Char))
    (ft : String) (t : List Char) (post : List (String × List Char))
    (hfit : tokensSum pre ≤ maxTokens)
    (hover : maxTokens < tokensSum pre + estTokens t) :
    includeFilings maxTokens 0 (pre ++ (ft, t) :: post) =
      pre ++ [(ft, t.take ((maxTokens - tokensSum pre) * 4))] ∧
    estTokens (t.take ((maxTokens - tokensSum pre) * 4)) = maxTokens - tokensSum pre ∧
    (∀ l : List (String × List Char), tokensSum l ≤ maxTokens →
      includeFilings maxTokens 0 l = l) ∧
    MAX_TOKENS = 32000 := by
  refine ⟨?_, ?_, ?_, rfl⟩
  · have h := includeFilings_overflow maxTokens 0 pre ft t post (by omega) (by omega)
    simpa using h
  · exact estTokens_take t _ (by omega)
  · intro l hl
    exact includeFilings_all_fit maxTokens 0 l (by omega)

/-- Claim C2 witness: the specification's own example — A of 3000
tokens, B of 3000 tokens, C present, budget 4000 — keeps all of A,
exactly 1000 tokens (4000 characters) of B, and drops C. -/
theorem claim_C2_witness :
    (tokensSum [("A", List.replicate 12000 'a')] ≤ 4000 ∧
     4000 < tokensSum [("A", List.replicate 12000 'a')] + estTokens (List.replicate 12000 'b')) ∧
    includeFilings 4000 0
        ([("A", List.replicate 12000 'a')] ++
          ("B", List.replicate 12000 'b') :: [("C", List.replicate 8000 'c')]) =
      [("A", List.replicate 12000 'a')] ++
        [("B", (List.replicate 12000 'b').take
          ((4000 - tokensSum [("A", List.replicate 12000 'a')]) * 4))] := by
  have h1 : tokensSum [("A", List.replicate 12000 'a')] ≤ 4000 := by
    simp only [tokensSum, estTokens, List.map_cons, List.map_nil, List.sum_cons,
      List.sum_nil, List.length_replicate]
    norm_num
  have h2 : 4000 < tokensSum [("A", List.replicate 12000 'a')] +
      estTokens (List.replicate 12000 'b') := by
    simp only [tokensSum, estTokens, List.map_cons, List.map_nil, List.sum_cons,
      List.sum_nil, List.length_replicate]
    norm_num
  exact ⟨⟨h1, h2⟩,
    (claim_C2 4000 [("A", List.replicate 12000 'a')] "B" (List.replicate 12000 'b')
      [("C", List.replicate 8000 'c')] h1 h2).1⟩

/-- Claim C3 counterexample: a company that exists but has no CIK is
accepted by `create_analysis` — the request returns 202/PENDING instead
of failing with a validation error, and a status record is inserted
into the (initially empty) `analysis_status` collection. -/
theorem claim_C3_counterexample :
    (create_analysis [("0123456789abcdef01234567", ⟨"Acme Bio", some "ACME", none⟩)] []
        "0123456789abcdef01234567" [] (Except.ok "task-1")).1 =
      Except.ok ⟨"PENDING", "task-1",
        "Analysis task has been queued. Poll the status endpoint to check progress."⟩ ∧
    (create_analysis [("0123456789abcdef01234567", ⟨"Acme Bio", some "ACME", none⟩)] []
        "0123456789abcdef01234567" [] (Except.ok "task-1")).2 =
      [⟨"0123456789abcdef01234567", "PENDING", ["8-K", "10-K", "10-Q"], some "task-1", none⟩] ∧
    (⟨"Acme Bio", some "ACME", none⟩ : CompanyDoc).cik = none := by
  exact ⟨rfl, rfl, rfl⟩

/-- Claim C3 (amended): a malformed company id or a nonexistent company
makes `create_analysis` fail immediately (400 / 404) with the status
collection unchanged; but a company that merely lacks a CIK is
accepted — the status record is created and the task dispatched — and
the missing CIK is only detected inside the worker, which then returns
without inserting an analysis. -/
theorem claim_C3 :
    (∀ (companies : List (String × CompanyDoc)) (statusColl : List StatusDoc)
       (cid : String) (req : List String) (dispatch : Except String String),
      isValidObjectId cid = false →
        create_analysis companies statusColl cid req dispatch =
          (Except.error ⟨400, "Invalid company ID format: " ++ cid⟩, statusColl)) ∧
    (∀ (companies : List (String × CompanyDoc)) (statusColl : List StatusDoc)
       (cid : String) (req : List String) (dispatch : Except String String),
      isValidObjectId cid = true →
      companies.find? (fun p => p.1 = cid) = none →
        create_analysis companies statusColl cid req dispatch =
          (Except.error ⟨404, "Company with ID " ++ cid ++ " not found"⟩, statusColl)) ∧
    (∀ (companies : List (String × CompanyDoc)) (statusColl : List StatusDoc)
       (cid taskId : String) (req : List String) (pr : String × CompanyDoc),
      isValidObjectId cid = true →
      companies.find? (fun p => p.1 = cid) = some pr →
        create_analysis companies statusColl cid req (Except.ok taskId) =
          (Except.ok ⟨"PENDING", taskId,
            "Analysis task has been queued. Poll the status endpoint to check progress."⟩,
           statusColl ++ [⟨cid, "PENDING",
             if req.isEmpty then ["8-K", "10-K", "10-Q"] else req,
             some taskId, none⟩])) ∧
    (∀ (cid : String) (ftypes : Option (List String)) (cdoc : CompanyDoc)
       (env : EdgarEnv) (mock : Bool) (hv : Nat) (md : String) (oc : BackendOutcome),
      cdoc.cik = none →
        analyze_company_sec_filings cid ftypes true (some cdoc) env mock hv md oc =
          Except.ok none) := by
  refine ⟨?_, ?_, ?_, ?_⟩
  · intro companies statusColl cid req dispatch hv
    simp [create_analysis, hv]
  · intro companies statusColl cid req dispatch hv hfind
    simp [create_analysis, hv, hfind]
  · intro companies statusColl cid taskId req pr hv hfind
    simp [create_analysis, hv, hfind]
  · intro cid ftypes cdoc env mock hv md oc hcik
    obtain ⟨nm, tk, ck⟩ := cdoc
    dsimp only at hcik
    subst hcik
    rfl

/-- Claim C3 witness: the three request outcomes and the worker's
missing-CIK behaviour at concrete inputs. -/
theorem claim_C3_witness :
    create_analysis [] [] "zzz" [] (Except.ok "t1") =
      (Except.error ⟨400, "Invalid company ID format: " ++ "zzz"⟩, []) ∧
    create_analysis [] [] "0123456789abcdef01234567" [] (Except.ok "t1") =
      (Except.error ⟨404, "Company with ID " ++ "0123456789abcdef01234567" ++ " not found"⟩, []) ∧
    create_analysis [("0123456789abcdef01234567", ⟨"Acme Bio", some "ACME", none⟩)] []
        "0123456789abcdef01234567" ["8-K"] (Except.ok "t1") =
      (Except.ok ⟨"PENDING", "t1",
        "Analysis task has been queued. Poll the status endpoint to check progress."⟩,
       [⟨"0123456789abcdef01234567", "PENDING",
         if (["8-K"] : List String).isEmpty then ["8-K", "10-K", "10-Q"] else ["8-K"],
         some "t1", none⟩]) ∧
    analyze_company_sec_filings "cid" none true (some ⟨"Acme Bio", some "ACME", none⟩)
        oneFilingEnv false 0 "" BackendOutcome.timeoutError = Except.ok none := by
  obtain ⟨h1, h2, h3, h4⟩ := claim_C3
  refine ⟨h1 [] [] "zzz" [] (Except.ok "t1") (by decide),
    h2 [] [] "0123456789abcdef01234567" [] (Except.ok "t1") (by decide) rfl, ?_,
    h4 "cid" none ⟨"Acme Bio", some "ACME", none⟩ oneFilingEnv false 0 ""
      BackendOutcome.timeoutError rfl⟩
  have h3' := h3 [("0123456789abcdef01234567", ⟨"Acme Bio", some "ACME", none⟩)] []
    "0123456789abcdef01234567" "t1" ["8-K"]
    ("0123456789abcdef01234567", ⟨"Acme Bio", some "ACME", none⟩) (by decide) (by decide)
  exact h3'

/-- Claim C4 (code bug): `get_company_filings_text` never consults its
`lookback_days` parameter — the result is identical for every lookback
value — and at a concrete input whose upstream has one recent 8-K and
one 8-K from 2020, a 365-day fetch still returns both filings (the ten
most recent per category, regardless of age), with no date filter and
no zero-survivor fallback distinction. -/
theorem claim_C4 :
    (∀ (cik : String) (ftypes : Option (List String)) (d₁ d₂ mf : Nat)
       (s : Bool) (env : EdgarEnv),
      get_company_filings_text cik ftypes d₁ mf s env =
        get_company_filings_text cik ftypes d₂ mf s env) ∧
    get_company_filings_text "0000123456" (some ["8-K"]) 365 10 false twoEraEnv =
      [("8-K",
        "\n\n--- 8-K FILING DATE: 2026-10-01 ---\n\n--- DOCUMENT: acc-new ---\n\nNEW\n\n" ++
        "\n\n--- 8-K FILING DATE: 2020-01-01 ---\n\n--- DOCUMENT: acc-old ---\n\nOLD\n\n")] := by
  exact ⟨fun cik ftypes d₁ d₂ mf s env => rfl, by decide⟩

/-- Claim C5 counterexample: a concrete fetch run performs four remote
calls back to back; the action trace contains consecutive remote calls
with no sleep between them, so the claimed mandatory inter-request
delay discipline does not hold. -/
theorem claim_C5_counterexample :
    get_company_filings_text_events (some ["8-K"]) 10 false twoEraEnv =
      [FetchEvent.remoteCall "Company submission index",
       FetchEvent.remoteCall "get_filings 8-K",
       FetchEvent.remoteCall "filing.text acc-new",
       FetchEvent.remoteCall "filing.text acc-old"] ∧
    sleepBetweenRemoteCalls
      (get_company_filings_text_events (some ["8-K"]) 10 false twoEraEnv) = false := by
  decide

/-- Claim C5 (amended): the Filing Fetcher encodes no inter-request
delay at all — the sequence of externally visible actions of any
`get_company_filings_text` run contains no sleep event whatsoever; its
remote calls are issued back to back and any pacing is left to the
external client library. -/
theorem claim_C5 (ft : Option (List String)) (mf : Nat) (s : Bool)
    (env : EdgarEnv) :
    (get_company_filings_text_events ft mf s env).any isSleepEvent = false :=
  no_sleep_in_fetch ft mf s env

/-- Claim C6 counterexample: when initialising upstream access fails,
the fetch returns the singleton mapping with the `"ERROR"` key — not an
empty mapping as claimed. -/
theorem claim_C6_counterexample :
    get_company_filings_text "0000320193" (some ["8-K", "10-K", "10-Q"]) 365 10 true
        ⟨Except.error "connection refused", fun _ => none, fun t _ _ => t⟩ =
      [("ERROR", "Failed to initialize edgartools: connection refused")] ∧
    [(("ERROR" : String), ("Failed to initialize edgartools: connection refused" : String))] ≠
      ([] : List (String × String)) := by
  exact ⟨rfl, by simp⟩

/-- Claim C6 (amended): when retrieving the filer's submission index
fails, the fetch aborts and returns the non-empty singleton mapping
`{"ERROR": message}`; the orchestrator's empty-mapping branch is
therefore never taken — the ERROR entry is passed to the Analysis
Engine like an ordinary category and the job still completes with an
inserted analysis record (here shown with a timed-out analysis call),
not a hard failure. -/
theorem claim_C6 (e cik company_id name mockDate : String)
    (tick : Option String) (ftypes : Option (List String))
    (ffor : String → Option (List Filing))
    (sfor : String → String → String → String) (hashVal : Nat) :
    get_company_filings_text cik ftypes 365 10 true ⟨Except.error e, ffor, sfor⟩ =
      [("ERROR", "Failed to initialize edgartools: " ++ e)] ∧
    analyze_company_sec_filings company_id ftypes true (some ⟨name, tick, some cik⟩)
        ⟨Except.error e, ffor, sfor⟩ false hashVal mockDate BackendOutcome.timeoutError =
      Except.ok (some ⟨company_id, ["ERROR"], degradedVerdict (timeoutErrorMsg name)⟩) := by
  refine ⟨rfl, ?_⟩
  have hfetch : get_company_filings_text cik (some (ftypes.getD ["8-K", "10-K", "10-Q"]))
      365 10 true ⟨Except.error e, ffor, sfor⟩ =
      [("ERROR", "Failed to initialize edgartools: " ++ e)] := rfl
  have hfe : (get_company_filings_text cik (some (ftypes.getD ["8-K", "10-K", "10-Q"]))
      365 10 true ⟨Except.error e, ffor, sfor⟩).isEmpty = false := by
    rw [hfetch]; rfl
  have hres := analyze_nonmock name hfe hashVal mockDate BackendOutcome.timeoutError
  have hok := analyze_task_ok company_id ftypes name tick cik ⟨Except.error e, ffor, sfor⟩
    false hashVal mockDate BackendOutcome.timeoutError (JVal.jbool false) (JVal.jbool false)
    (timeoutErrorMsg name)
    (by rw [hres]; exact lookupKey_degraded_stock _)
    (by rw [hres]; exact lookupKey_degraded_buy _)
    (by rw [hres]; exact lookupKey_degraded_reasoning _)
  rw [hres, hfetch] at hok
  simpa using hok

/-- Claim C7 counterexample: the resolver returns the same `None` both
when the ticker directory cannot be fetched and when no entry matches
the ticker, so the two failure causes are not distinguishable by the
caller, contrary to the claimed distinct NotFound / UpstreamUnavailable
failures. -/
theorem claim_C7_counterexample :
    get_cik_from_ticker "AAPL" (Except.error "directory unavailable") = none ∧
    get_cik_from_ticker "AAPL" (Except.ok [⟨"MSFT", 789019⟩]) = none := by
  exact ⟨rfl, by decide⟩

/-- Claim C7 (amended): the resolver matches the directory entry
case-insensitively and on a match returns the CIK zero-padded to 10
digits; but both failure causes — no matching entry and an unfetchable
directory — return the same `None`, so the caller cannot tell them
apart. -/
theorem claim_C7 (ticker e : String) (entries : List TickerEntry) :
    get_cik_from_ticker ticker (Except.error e) = none ∧
    get_cik_from_ticker ticker (Except.ok entries) =
      (entries.find? (fun c => strUpper c.ticker = strUpper ticker)).map
        (fun c => zfill 10 (toString c.cik_str)) ∧
    (∀ c : TickerEntry, (toString c.cik_str).length ≤ 10 →
      (zfill 10 (toString c.cik_str)).length = 10) ∧
    (∀ entries₂ : List TickerEntry,
      entries₂.find? (fun c => strUpper c.ticker = strUpper ticker) = none →
      get_cik_from_ticker ticker (Except.error e) =
        get_cik_from_ticker ticker (Except.ok entries₂)) := by
  refine ⟨rfl, ?_, ?_, ?_⟩
  · cases hfind : entries.find? (fun c => strUpper c.ticker = strUpper ticker) with
    | none => simp [get_cik_from_ticker, hfind]
    | some c => simp [get_cik_from_ticker, hfind]
  · intro c hc
    exact zfill_length 10 hc
  · intro entries₂ hfind
    simp [get_cik_from_ticker, hfind]

/-- Claim C7 witness: a lowercase query matches an uppercase directory
entry and yields the 10-digit zero-padded identifier. -/
theorem claim_C7_witness :
    ((toString (320193 : Nat)).length ≤ 10) ∧
    get_cik_from_ticker "aapl" (Except.ok [⟨"AAPL", 320193⟩]) =
      some (zfill 10 (toString (320193 : Nat))) ∧
    (zfill 10 (toString (320193 : Nat))).length = 10 ∧
    get_cik_from_ticker "aapl" (Except.error "down") =
      get_cik_from_ticker "aapl" (Except.ok [⟨"MSFT", 789019⟩]) := by
  obtain ⟨h1, h2, h3, h4⟩ := claim_C7 "aapl" "down" [⟨"AAPL", 320193⟩]
  have hfind : ([⟨"AAPL", 320193⟩] : List TickerEntry).find?
      (fun c => strUpper c.ticker = strUpper "aapl") = some ⟨"AAPL", 320193⟩ := by decide
  have hlen : (toString (320193 : Nat)).length ≤ 10 := by decide
  refine ⟨hlen, ?_, h3 ⟨"AAPL", 320193⟩ hlen, h4 [⟨"MSFT", 789019⟩] (by decide)⟩
  rw [h2, hfind]
  rfl

/-- Claim C8 counterexample: a verdict whose `expected_by_date` is the
empty string — present and unparseable as a calendar date — is returned
and persisted verbatim, not coerced to null: Python's truthiness test
skips validation for falsy values. -/
theorem claim_C8_counterexample :
    isValidYmd "" = false ∧
    analyze_filings_with_llm "Acme Bio" [("8-K", "text")] false 0 ""
        (BackendOutcome.reply (some emptyDateReply)) = emptyDateReply ∧
    lookupKey emptyDateReply "expected_by_date" = some (JVal.jstr "") ∧
    analyze_company_sec_filings "cid" (some ["8-K"]) true (some ⟨"Acme Bio", none, some "1"⟩)
        oneFilingEnv false 0 "" (BackendOutcome.reply (some emptyDateReply)) =
      Except.ok (some ⟨"cid", ["8-K"], emptyDateReply⟩) := by
  exact ⟨rfl, rfl, rfl, rfl⟩

/-- Claim C8 (amended): a present, non-empty `expected_by_date` string
is kept exactly when it parses as a `YYYY-MM-DD` calendar date and is
coerced to null before storage when it does not; the verdict is never
rejected for it, and the worker persists the post-coercion object
unchanged.  The one exception is the empty string, which is falsy in
Python, skips validation, and is stored verbatim. -/
theorem claim_C8 (r : JObj) (s : String)
    (hdate : lookupKey r "expected_by_date" = some (JVal.jstr s)) :
    (isValidYmd s = true → validateDateField r = r) ∧
    (s ≠ "" → isValidYmd s = false →
      validateDateField r = setKey r "expected_by_date" JVal.jnull ∧
      lookupKey (validateDateField r) "expected_by_date" = some JVal.jnull) ∧
    (s = "" → validateDateField r = r) ∧
    (∀ (companyName mockDate : String) (hashVal : Nat)
       (filings : List (String × String)), filings ≠ [] →
      analyze_filings_with_llm companyName filings false hashVal mockDate
        (BackendOutcome.reply (some r)) = validateDateField r) ∧
    (∀ (cid name cik mockDate : String) (tick : Option String)
       (ftypes : Option (List String)) (env : EdgarEnv) (hashVal : Nat)
       (b1 b2 : JVal) (rs : String),
      lookupKey (validateDateField r) "stock_expected_to_go_up" = some b1 →
      lookupKey (validateDateField r) "is_good_buy" = some b2 →
      lookupKey (validateDateField r) "reasoning" = some (JVal.jstr rs) →
      analyze_company_sec_filings cid ftypes true (some ⟨name, tick, some cik⟩) env
          false hashVal mockDate (BackendOutcome.reply (some r)) =
        Except.ok (some ⟨cid,
          (get_company_filings_text cik (some (ftypes.getD ["8-K", "10-K", "10-Q"]))
            365 10 true env).map (fun p => p.1), validateDateField r⟩)) ∧
    isValidYmd "2023-12-31" = true ∧ isValidYmd "not-a-date" = false ∧
    isValidYmd "2023-02-30" = false := by
  refine ⟨?_, ?_, ?_, ?_, ?_, by decide, by decide, by decide⟩
  · intro hv
    unfold validateDateField
    rw [hdate]
    by_cases hs : s = ""
    · simp [hs]
    · simp [hs, hv]
  · intro hs hv
    have heq : validateDateField r = setKey r "expected_by_date" JVal.jnull := by
      unfold validateDateField
      rw [hdate]
      simp [hs, hv]
    exact ⟨heq, by rw [heq]; exact lookupKey_setKey_self r _ _⟩
  · intro hs
    unfold validateDateField
    rw [hdate]
    simp [hs]
  · intro companyName mockDate hashVal filings hne
    have hne' : filings.isEmpty = false := by
      cases filings with
      | nil => exact absurd rfl hne
      | cons p rest => rfl
    exact analyze_nonmock companyName hne' hashVal mockDate _
  · intro cid name cik mockDate tick ftypes env hashVal b1 b2 rs hb1 hb2 hb3
    have hfe : (get_company_filings_text cik (some (ftypes.getD ["8-K", "10-K", "10-Q"]))
        365 10 true env).isEmpty = false :=
      filings_text_isEmpty_false cik _ 365 10 true env
    have hres := analyze_nonmock name hfe hashVal mockDate (BackendOutcome.reply (some r))
    have hok := analyze_task_ok cid ftypes name tick cik env false hashVal mockDate
      (BackendOutcome.reply (some r)) b1 b2 rs
      (by rw [hres]; exact hb1) (by rw [hres]; exact hb2) (by rw [hres]; exact hb3)
    rw [hres] at hok
    exact hok

/-- Claim C8 witness: a verdict carrying the valid date `2026-06-30` is
kept exactly and persisted unchanged through the worker. -/
theorem claim_C8_witness :
    lookupKey validDateReply "expected_by_date" = some (JVal.jstr "2026-06-30") ∧
    isValidYmd "2026-06-30" = true ∧
    validateDateField validDateReply = validDateReply ∧
    analyze_company_sec_filings "cid" (some ["8-K"]) true (some ⟨"Acme Bio", none, some "1"⟩)
        oneFilingEnv false 0 "x" (BackendOutcome.reply (some validDateReply)) =
      Except.ok (some ⟨"cid", ["8-K"], validateDateField validDateReply⟩) := by
  obtain ⟨h1, h2, h3, h4, h5, h6⟩ := claim_C8 validDateReply "2026-06-30" rfl
  have hvalid : isValidYmd "2026-06-30" = true := by decide
  have hkept : validateDateField validDateReply = validDateReply := h1 hvalid
  refine ⟨rfl, hvalid, hkept, ?_⟩
  have h5' := h5 "cid" "Acme Bio" "1" "x" none (some ["8-K"]) oneFilingEnv 0
    (JVal.jbool true) (JVal.jbool true) "Positive phase 3 results."
    (by rw [hkept]; rfl) (by rw [hkept]; rfl) (by rw [hkept]; rfl)
  have hmap : (get_company_filings_text "1" (some ((some ["8-K"]).getD ["8-K", "10-K", "10-Q"]))
      365 10 true oneFilingEnv).map (fun p => p.1) = ["8-K"] := by decide
  rw [hmap] at h5'
  exact h5'

/-- Claim C9 counterexample: a successfully parsed backend reply
carrying only three of the four verdict fields is returned by the
Analysis Engine as-is and persisted by the worker as-is — a partial
verdict (no `expected_by_date` key at all) is both returned and
stored. -/
theorem claim_C9_counterexample :
    hasAllFourFields threeFieldReply = false ∧
    analyze_filings_with_llm "Acme Bio" [("8-K", "text")] false 0 ""
        (BackendOutcome.reply (some threeFieldReply)) = threeFieldReply ∧
    analyze_company_sec_filings "cid" (some ["8-K"]) true (some ⟨"Acme Bio", none, some "1"⟩)
        oneFilingEnv false 0 "" (BackendOutcome.reply (some threeFieldReply)) =
      Except.ok (some ⟨"cid", ["8-K"], threeFieldReply⟩) := by
  exact ⟨rfl, rfl, rfl⟩

/-- Claim C9 (amended): every verdict produced on a failure path — any
caught backend failure, the malformed-response path, the empty-input
path and the mock path — carries all four fields together; but the
success-parse path returns the backend's object with its key set
preserved by the date coercion (or replaced by a complete degraded
verdict when a truthy non-string date raises), so a backend reply
missing a field yields a stored verdict missing that field. -/
theorem claim_C9 (companyName mockDate : String) (hashVal : Nat)
    (filings : List (String × String)) (hne : filings ≠ []) (r : JObj) :
    hasAllFourFields (analyze_filings_with_llm companyName filings false hashVal mockDate
      BackendOutcome.authError) = true ∧
    hasAllFourFields (analyze_filings_with_llm companyName filings false hashVal mockDate
      BackendOutcome.timeoutError) = true ∧
    hasAllFourFields (analyze_filings_with_llm companyName filings false hashVal mockDate
      BackendOutcome.rateLimitError) = true ∧
    (∀ d, hasAllFourFields (analyze_filings_with_llm companyName filings false hashVal mockDate
      (BackendOutcome.apiError d)) = true) ∧
    hasAllFourFields (analyze_filings_with_llm companyName filings false hashVal mockDate
      (BackendOutcome.reply none)) = true ∧
    (∀ oc, hasAllFourFields (analyze_filings_with_llm companyName [] false hashVal mockDate
      oc) = true) ∧
    (∀ oc, hasAllFourFields (analyze_filings_with_llm companyName filings true hashVal mockDate
      oc) = true) ∧
    (analyze_filings_with_llm companyName filings false hashVal mockDate
      (BackendOutcome.reply (some r)) = validateDateField r) ∧
    ((validateDateField r).map (fun p => p.1) = r.map (fun p => p.1) ∨
      validateDateField r =
        degradedVerdict (unexpectedErrorMsg "strptime() argument 1 must be str")) := by
  have hne' : filings.isEmpty = false := by
    cases filings with
    | nil => exact absurd rfl hne
    | cons p rest => rfl
  refine ⟨by rw [analyze_nonmock companyName hne' hashVal mockDate]; rfl,
    by rw [analyze_nonmock companyName hne' hashVal mockDate]; rfl,
    by rw [analyze_nonmock companyName hne' hashVal mockDate]; rfl,
    fun d => by rw [analyze_nonmock companyName hne' hashVal mockDate]; rfl,
    by rw [analyze_nonmock companyName hne' hashVal mockDate]; rfl,
    fun oc => rfl,
    fun oc => by rw [analyze_mock companyName hne' hashVal mockDate]; rfl,
    analyze_nonmock companyName hne' hashVal mockDate _, ?_⟩
  unfold validateDateField
  cases hdate : lookupKey r "expected_by_date" with
  | none => exact Or.inl rfl
  | some v =>
    cases v with
    | jnull => exact Or.inl rfl
    | jbool b =>
      cases b with
      | false => exact Or.inl rfl
      | true => exact Or.inr rfl
    | jstr s =>
      by_cases hs : s = ""
      · exact Or.inl (by simp [hs])
      · by_cases hv : isValidYmd s = true
        · exact Or.inl (by simp [hs, hv])
        · refine Or.inl ?_
          have hred : (if s = "" then r else if isValidYmd s then r
              else setKey r "expected_by_date" JVal.jnull) =
              setKey r "expected_by_date" JVal.jnull := by
            simp [hs, hv]
          dsimp only
          rw [hred]
          exact keys_setKey JVal.jnull hdate

/-- Claim C9 witness: at a concrete non-empty filings list, the timeout
verdict is complete, and the three-field reply's key set is preserved
(still missing the date) through the success path. -/
theorem claim_C9_witness :
    ([(("8-K" : String), ("text" : String))] ≠ []) ∧
    hasAllFourFields (analyze_filings_with_llm "Acme Bio" [("8-K", "text")] false 0 "d"
      BackendOutcome.timeoutError) = true ∧
    analyze_filings_with_llm "Acme Bio" [("8-K", "text")] false 0 "d"
      (BackendOutcome.reply (some threeFieldReply)) = validateDateField threeFieldReply ∧
    ((validateDateField threeFieldReply).map (fun p => p.1) =
        threeFieldReply.map (fun p => p.1) ∨
      validateDateField threeFieldReply =
        degradedVerdict (unexpectedErrorMsg "strptime() argument 1 must be str")) := by
  have h := claim_C9 "Acme Bio" "d" 0 [("8-K", "text")] (by simp) threeFieldReply
  exact ⟨by simp, h.2.1, h.2.2.2.2.2.2.2.1, h.2.2.2.2.2.2.2.2⟩

/-- Claim C10 (confirmed): `get_company_filings_text` never returns an
empty mapping — when upstream initialisation fails, and when no filings
at all can be retrieved, the result is the singleton `"ERROR"` entry
with a message string — so the worker's emptiness test never fires and
the ERROR entry flows into the analysis input like an ordinary filing
category (here visible as the recorded `filings_analyzed = ["ERROR"]`
of the completed analysis). -/
theorem claim_C10 (cik : String) (ftypes : Option (List String)) (lb mf : Nat)
    (s : Bool) (env : EdgarEnv) :
    get_company_filings_text cik ftypes lb mf s env ≠ [] ∧
    (∀ e, env.initResult = Except.error e →
      get_company_filings_text cik ftypes lb mf s env =
        [("ERROR", "Failed to initialize edgartools: " ++ e)]) ∧
    (∀ name, env.initResult = Except.ok name →
      (∀ ft ∈ resolveFilingTypes ftypes, categoryText env mf s ft = none) →
      get_company_filings_text cik ftypes lb mf s env =
        [("ERROR", "No filings could be retrieved for " ++ name)]) ∧
    (∀ (company_id name mockDate e : String) (tick : Option String) (hashVal : Nat)
       (oc : BackendOutcome),
      env.initResult = Except.error e →
      analyze_company_sec_filings company_id ftypes true (some ⟨name, tick, some cik⟩)
          env true hashVal mockDate oc =
        Except.ok (some ⟨company_id, ["ERROR"], mockVerdict name hashVal mockDate⟩)) := by
  refine ⟨filings_text_ne_nil cik ftypes lb mf s env, ?_, ?_, ?_⟩
  · intro e he
    simp [get_company_filings_text, he]
  · intro name hok hall
    have hnil : (resolveFilingTypes ftypes).filterMap
        (fun ft => (categoryText env mf s ft).map (fun t => (ft, t))) = [] := by
      rw [List.filterMap_eq_nil_iff]
      intro ft hf
      rw [hall ft hf]
      rfl
    simp [get_company_filings_text, hok, hnil]
  · intro company_id name mockDate e tick hashVal oc he
    have hfetch : get_company_filings_text cik (some (ftypes.getD ["8-K", "10-K", "10-Q"]))
        365 10 true env = [("ERROR", "Failed to initialize edgartools: " ++ e)] := by
      simp [get_company_filings_text, he]
    have hfe : (get_company_filings_text cik (some (ftypes.getD ["8-K", "10-K", "10-Q"]))
        365 10 true env).isEmpty = false := by
      rw [hfetch]; rfl
    have hmock := analyze_mock name hfe hashVal mockDate oc
    have hok := analyze_task_ok company_id ftypes name tick cik env true hashVal mockDate oc
      (JVal.jbool (hashVal % 2 = 0)) (JVal.jbool (hashVal % 3 = 0))
      (mockReasoning name hashVal)
      (by rw [hmock]; rfl) (by rw [hmock]; rfl) (by rw [hmock]; rfl)
    rw [hmock, hfetch] at hok
    simpa using hok

/-- Claim C10 witness: with an unreachable upstream the fetch returns
the ERROR singleton (non-empty), a reachable upstream with zero
retrievable filings returns the no-filings ERROR singleton, and the
worker records `["ERROR"]` as the analyzed categories of a completed
analysis. -/
theorem claim_C10_witness :
    get_company_filings_text "0000000001" none 365 10 true
        ⟨Except.error "down", fun _ => none, fun t _ _ => t⟩ ≠ [] ∧
    get_company_filings_text "0000000001" none 365 10 true
        ⟨Except.error "down", fun _ => none, fun t _ _ => t⟩ =
      [("ERROR", "Failed to initialize edgartools: " ++ "down")] ∧
    get_company_filings_text "0000000001" none 365 10 true
        ⟨Except.ok "Acme Bio", fun _ => some [], fun t _ _ => t⟩ =
      [("ERROR", "No filings could be retrieved for " ++ "Acme Bio")] ∧
    analyze_company_sec_filings "cid" none true (some ⟨"Acme Bio", none, some "0000000001"⟩)
        ⟨Except.error "down", fun _ => none, fun t _ _ => t⟩ true 4 "2026-03-01"
        (BackendOutcome.reply none) =
      Except.ok (some ⟨"cid", ["ERROR"], mockVerdict "Acme Bio" 4 "2026-03-01"⟩) := by
  obtain ⟨h1, h2, _, h4⟩ := claim_C10 "0000000001" none 365 10 true
    ⟨Except.error "down", fun _ => none, fun t _ _ => t⟩
  obtain ⟨_, _, h3, _⟩ := claim_C10 "0000000001" none 365 10 true
    ⟨Except.ok "Acme Bio", fun _ => some [], fun t _ _ => t⟩
  exact ⟨h1, h2 "down" rfl, h3 "Acme Bio" rfl (fun ft _ => rfl),
    h4 "cid" "Acme Bio" "2026-03-01" "down" none 4 (BackendOutcome.reply none) rfl⟩

end StockAnalyze
